import Mathlib

/-!
Shallow embedding of the two Go programs of `minimal-go-tracing`
(`go-bot-chat/main.go` and `go-bot-itsm/main.go`).

Both programs run a synchronous read-process-respond loop.  One pass of
the loop is embedded as a step function taking the raw input line and the
result of the external model call, and returning the loop outcome, the
updated conversation history and the list of tracing events the pass
emits (span start, attribute setting, span end, flush, provider
shutdown).  The ITSM variant additionally builds a ticket draft with
`inferAccessRequestDraft`; its freshly generated identifier and current
timestamp are passed in as parameters, everything else is translated
directly from the source.
-/

namespace GoBotSpec

/-- Go `strings.Contains` on character lists: `leadsWith pat s` is true
when `pat` occurs at the very start of `s`. -/
def leadsWith : List Char → List Char → Bool
  | [], _ => true
  | _ :: _, [] => false
  | p :: ps, c :: cs => p == c && leadsWith ps cs

/-- `containsChars pat s` is true when `pat` occurs contiguously
somewhere in `s`. -/
def containsChars (pat : List Char) : List Char → Bool
  | [] => pat.isEmpty
  | c :: rest => leadsWith pat (c :: rest) || containsChars pat rest

/-- Go `strings.Contains s pat`. -/
def containsSubstr (s pat : String) : Bool :=
  containsChars pat.data s.data

/-- Go `strings.ToLower` on the ASCII range. -/
def toLowerAscii (s : String) : String :=
  ⟨s.data.map Char.toLower⟩

/-- Go `strings.ToUpper` on the ASCII range. -/
def toUpperAscii (s : String) : String :=
  ⟨s.data.map Char.toUpper⟩

/-- ASCII whitespace recognised by Go `strings.TrimSpace`. -/
def isSpaceChar (c : Char) : Bool :=
  c == ' ' || c == '\t' || c == '\n' || c == '\r' || c == '\x0b' || c == '\x0c'

/-- Go `strings.TrimSpace`: drop leading and trailing whitespace. -/
def trimSpace (s : String) : String :=
  ⟨(((s.data.dropWhile isSpaceChar).reverse).dropWhile isSpaceChar).reverse⟩

/-- Go slicing `s[:n]` of an ASCII string. -/
def takeStr (s : String) (n : Nat) : String :=
  ⟨s.data.take n⟩

/-- Go `strings.Join` with the given separator. -/
def joinWith (sep : String) : List String → String
  | [] => ""
  | [s] => s
  | s :: rest => s ++ sep ++ joinWith sep rest

/-- A span attribute value: OpenTelemetry `attribute.String` or
`attribute.Int64`. -/
inductive AttrValue
  | str (s : String)
  | int (i : Int)
deriving DecidableEq, Repr

/-- Observable tracing actions of one pass of the turn loop. -/
inductive TurnEvent
  | spanStart (name : String) (attrs : List (String × AttrValue))
  | spanSetAttrs (attrs : List (String × AttrValue))
  | spanEnd
  | forceFlush (timeoutSeconds : Option Nat)
  | providerShutdown (timeoutSeconds : Option Nat)
deriving DecidableEq, Repr

/-- Role of a transcript entry. -/
inductive Role
  | user
  | assistant
deriving DecidableEq, Repr

/-- One transcript entry (`anthropic.MessageParam`). -/
structure Message where
  role : Role
  text : String
deriving DecidableEq, Repr

/-- One content block of a model response. -/
structure ContentBlock where
  type : String
  text : String
deriving DecidableEq, Repr

/-- Token usage counts of a model response. -/
structure Usage where
  inputTokens : Int
  outputTokens : Int
deriving DecidableEq, Repr

/-- A successful model response: content blocks plus usage. -/
structure ModelResponse where
  content : List ContentBlock
  usage : Usage
deriving DecidableEq, Repr

/-- Whether the loop pass continues with the next line or quits. -/
inductive StepOutcome
  | continueLoop
  | quitSession
deriving DecidableEq, Repr

/-- `AccessRequest` of `go-bot-itsm/main.go`. -/
structure AccessRequest where
  id : String
  type : String
  requestedFor : String
  resource : String
  accessLevel : String
  duration : String
  businessJustif : String
  approvalsRequired : String
  riskLevel : String
  status : String
  createdAt : String
  recommendedActions : String
deriving DecidableEq, Repr

/-- The sequential, non-exclusive resource checks of
`inferAccessRequestDraft` before the `_prod` suffixing: snowflake, then
datadog, then github, each overwriting the previous assignment. -/
def inferResourceBase (lower : String) : String :=
  let resource := "unknown"
  let resource := if containsSubstr lower "snowflake" then "snowflake" else resource
  let resource := if containsSubstr lower "datadog" then "datadog" else resource
  if containsSubstr lower "github" then "github" else resource

/-- The resource field of `inferAccessRequestDraft`: the base matched by
the vocabulary checks, with `_prod` appended when a prod marker is
present. -/
def inferResource (lower : String) : String :=
  let resource := inferResourceBase lower
  if containsSubstr lower "prod" || containsSubstr lower "production" then
    resource ++ "_prod"
  else
    resource

/-- The access-level field: first match wins, admin / read / write. -/
def inferAccessLevel (lower : String) : String :=
  if containsSubstr lower "admin" then "admin"
  else if containsSubstr lower "read" then "read"
  else if containsSubstr lower "write" then "write"
  else "unknown"

/-- The duration field: only the literal combinations 24+hour and 7+day
are recognised. -/
def inferDuration (lower : String) : String :=
  if containsSubstr lower "24" && containsSubstr lower "hour" then "24h"
  else if containsSubstr lower "7" && containsSubstr lower "day" then "7d"
  else "unknown"

/-- The risk field: high when a prod or admin substring appears. -/
def inferRisk (lower : String) : String :=
  if containsSubstr lower "prod" || containsSubstr lower "admin" then "high"
  else "medium"

/-- `inferAccessRequestDraft` of `go-bot-itsm/main.go`.  The current
timestamp string and the fresh UUID string that the Go code obtains from
`time.Now` and `uuid.New` are passed in as parameters `now` and
`uuidStr`. -/
def inferAccessRequestDraft (now uuidStr userMessage : String) : AccessRequest :=
  let id := "AR-" ++ toUpperAscii (takeStr uuidStr 8)
  let lower := toLowerAscii userMessage
  { id := id
    type := "access_request"
    requestedFor := "self"
    resource := inferResource lower
    accessLevel := inferAccessLevel lower
    duration := inferDuration lower
    businessJustif := "provided_in_chat"
    approvalsRequired := "manager + system_owner"
    riskLevel := inferRisk lower
    status := "draft"
    createdAt := now
    recommendedActions := "collect justification; confirm duration; route for approval; provision access; log audit" }

/-- One character of Go `encoding/json` string escaping. -/
def jsonEscapeChar (c : Char) : String :=
  if c = '"' then "\\\""
  else if c = '\\' then "\\\\"
  else if c = '\n' then "\\n"
  else if c = '\t' then "\\t"
  else if c = '\r' then "\\r"
  else if c = '<' then "\\u003c"
  else if c = '>' then "\\u003e"
  else if c = '&' then "\\u0026"
  else String.singleton c

/-- Go `encoding/json` string escaping. -/
def jsonEscape (s : String) : String :=
  joinWith "" (s.data.map jsonEscapeChar)

/-- One field line of the two-space-indented JSON object. -/
def jsonField (name value : String) : String :=
  "  \"" ++ name ++ "\": \"" ++ jsonEscape value ++ "\""

/-- `json.MarshalIndent` of an `AccessRequest` with two-space indent, in
struct-tag order. -/
def ticketDraftJson (t : AccessRequest) : String :=
  "\x7b\n" ++ joinWith ",\n"
    [jsonField "id" t.id,
     jsonField "type" t.type,
     jsonField "requested_for" t.requestedFor,
     jsonField "resource" t.resource,
     jsonField "access_level" t.accessLevel,
     jsonField "duration" t.duration,
     jsonField "business_justification" t.businessJustif,
     jsonField "approvals_required" t.approvalsRequired,
     jsonField "risk_level" t.riskLevel,
     jsonField "status" t.status,
     jsonField "created_at" t.createdAt,
     jsonField "recommended_actions" t.recommendedActions] ++ "\n\x7d"

/-- The pre-call attributes of a chat Turn Span
(`go-bot-chat/main.go`, `tracer.Start`). -/
def chatStartAttrs (threadID userMessage : String) : List (String × AttrValue) :=
  [("langsmith.trace.name", AttrValue.str "go-bot"),
   ("langsmith.metadata.session_id", AttrValue.str threadID),
   ("langsmith.span.kind", AttrValue.str "chain"),
   ("gen_ai.prompt", AttrValue.str userMessage)]

/-- One pass of the `go-bot-chat` turn loop (lines 85-151 of
`go-bot-chat/main.go`): trim, skip blank lines, handle quit (force-flush
then the deferred provider shutdown with its 10-second timeout), append
the user entry, start the turn span, and on model success join the text
blocks with newlines, set the post-call attributes, append the assistant
entry; the span is ended on both the error and the success path. -/
def chatTurnStep (threadID : String) (history : List Message)
    (rawLine : String) (modelResult : Except String ModelResponse) :
    StepOutcome × List Message × List TurnEvent :=
  let userMessage := trimSpace rawLine
  if userMessage = "" then
    (StepOutcome.continueLoop, history, [])
  else if toLowerAscii userMessage = "quit" then
    (StepOutcome.quitSession, history,
      [TurnEvent.forceFlush none, TurnEvent.providerShutdown (some 10)])
  else
    let history1 := history ++ [⟨Role.user, userMessage⟩]
    let startEvent := TurnEvent.spanStart "chat_turn" (chatStartAttrs threadID userMessage)
    match modelResult with
    | Except.error _ =>
      (StepOutcome.continueLoop, history1, [startEvent, TurnEvent.spanEnd])
    | Except.ok resp =>
      let textParts := (resp.content.filter fun b => b.type = "text").map ContentBlock.text
      let responseText := joinWith "\n" textParts
      let history2 := history1 ++ [⟨Role.assistant, responseText⟩]
      (StepOutcome.continueLoop, history2,
        [startEvent,
         TurnEvent.spanSetAttrs
           [("gen_ai.completion", AttrValue.str responseText),
            ("gen_ai.usage.input_tokens", AttrValue.int resp.usage.inputTokens),
            ("gen_ai.usage.output_tokens", AttrValue.int resp.usage.outputTokens)],
         TurnEvent.spanEnd])

/-- The pre-call attributes of an ITSM Turn Span
(`go-bot-itsm/main.go`, `tracer.Start`). -/
def itsmStartAttrs (threadID userMessage : String) : List (String × AttrValue) :=
  [("langsmith.trace.name", AttrValue.str "go-bot-itsm"),
   ("langsmith.metadata.session_id", AttrValue.str threadID),
   ("langsmith.span.kind", AttrValue.str "chain"),
   ("gen_ai.prompt", AttrValue.str userMessage),
   ("itsm.category", AttrValue.str "access_request_demo")]

/-- One pass of the `go-bot-itsm` turn loop (lines 112-185 of
`go-bot-itsm/main.go`).  Identical in structure to `chatTurnStep`; on
success it additionally infers a ticket draft from the user message and
records its JSON serialisation as one more span attribute.  `now` and
`uuidStr` feed the draft's timestamp and identifier. -/
def itsmTurnStep (threadID now uuidStr : String) (history : List Message)
    (rawLine : String) (modelResult : Except String ModelResponse) :
    StepOutcome × List Message × List TurnEvent :=
  let userMessage := trimSpace rawLine
  if userMessage = "" then
    (StepOutcome.continueLoop, history, [])
  else if toLowerAscii userMessage = "quit" then
    (StepOutcome.quitSession, history,
      [TurnEvent.forceFlush none, TurnEvent.providerShutdown (some 10)])
  else
    let history1 := history ++ [⟨Role.user, userMessage⟩]
    let startEvent := TurnEvent.spanStart "itsm_turn" (itsmStartAttrs threadID userMessage)
    match modelResult with
    | Except.error _ =>
      (StepOutcome.continueLoop, history1, [startEvent, TurnEvent.spanEnd])
    | Except.ok resp =>
      let textParts := (resp.content.filter fun b => b.type = "text").map ContentBlock.text
      let responseText := joinWith "\n" textParts
      let ticketDraft := inferAccessRequestDraft now uuidStr userMessage
      let history2 := history1 ++ [⟨Role.assistant, responseText⟩]
      (StepOutcome.continueLoop, history2,
        [startEvent,
         TurnEvent.spanSetAttrs
           [("gen_ai.completion", AttrValue.str responseText),
            ("gen_ai.usage.input_tokens", AttrValue.int resp.usage.inputTokens),
            ("gen_ai.usage.output_tokens", AttrValue.int resp.usage.outputTokens),
            ("itsm.ticket_draft_json", AttrValue.str (ticketDraftJson ticketDraft))],
         TurnEvent.spanEnd])

/-- Classifier for span-start events. -/
def isSpanStart : TurnEvent → Bool
  | TurnEvent.spanStart _ _ => true
  | _ => false

/-- Classifier for span-end events. -/
def isSpanEnd : TurnEvent → Bool
  | TurnEvent.spanEnd => true
  | _ => false

/-- Classifier for attribute-setting events. -/
def isSetAttrs : TurnEvent → Bool
  | TurnEvent.spanSetAttrs _ => true
  | _ => false

/-- Classifier for flushing events (both the explicit force-flush and
the provider shutdown, which flushes buffered spans) carrying a positive
timeout. -/
def isFlushWithPositiveTimeout : TurnEvent → Bool
  | TurnEvent.forceFlush (some t) => decide (0 < t)
  | TurnEvent.providerShutdown (some t) => decide (0 < t)
  | _ => false

/-- Number of Turn Spans started in an event trace. -/
def spanStartCount (events : List TurnEvent) : Nat :=
  (events.filter isSpanStart).length

/-- Number of Turn Spans ended in an event trace. -/
def spanEndCount (events : List TurnEvent) : Nat :=
  (events.filter isSpanEnd).length

/-- Number of attribute-setting calls in an event trace. -/
def setAttrsCount (events : List TurnEvent) : Nat :=
  (events.filter isSetAttrs).length

/-- Number of flushing calls with a positive timeout in an event
trace. -/
def flushWithPositiveTimeoutCount (events : List TurnEvent) : Nat :=
  (events.filter isFlushWithPositiveTimeout).length

/-- All attributes attached to a span in an event trace, in order. -/
def attrsOf (events : List TurnEvent) : List (String × AttrValue) :=
  (events.map fun e =>
    match e with
    | TurnEvent.spanStart _ attrs => attrs
    | TurnEvent.spanSetAttrs attrs => attrs
    | _ => []).flatten

/-- The `langsmith.metadata.session_id` attribute carried by a
span-start event, when there is one. -/
def sessionIdOfEvent : TurnEvent → Option AttrValue
  | TurnEvent.spanStart _ attrs => List.lookup "langsmith.metadata.session_id" attrs
  | _ => none

/-- All turn inputs of one ITSM session pass: the per-turn timestamp and
UUID, the raw input line and the model-call result. -/
structure ItsmTurnInput where
  now : String
  uuidStr : String
  line : String
  modelResult : Except String ModelResponse

/-- The full `go-bot-chat` session loop over a list of (line, model
result) pairs, threading the conversation history and stopping at the
quit line, collecting every tracing event emitted. -/
def runChatSession (threadID : String) (history : List Message) :
    List (String × Except String ModelResponse) → List TurnEvent
  | [] => []
  | (line, mr) :: rest =>
    let r := chatTurnStep threadID history line mr
    match r.1 with
    | StepOutcome.quitSession => r.2.2
    | StepOutcome.continueLoop => r.2.2 ++ runChatSession threadID r.2.1 rest

/-- The full `go-bot-itsm` session loop, analogous to
`runChatSession`. -/
def runItsmSession (threadID : String) (history : List Message) :
    List ItsmTurnInput → List TurnEvent
  | [] => []
  | inp :: rest =>
    let r := itsmTurnStep threadID inp.now inp.uuidStr history inp.line inp.modelResult
    match r.1 with
    | StepOutcome.quitSession => r.2.2
    | StepOutcome.continueLoop => r.2.2 ++ runItsmSession threadID r.2.1 rest

/-- Evaluation of a `go-bot-chat` loop pass on a blank-after-trimming
line: nothing happens. -/
theorem chatTurnStep_blank_eq (threadID : String) (hist : List Message)
    (rawLine : String) (mr : Except String ModelResponse)
    (h : trimSpace rawLine = "") :
    chatTurnStep threadID hist rawLine mr = (StepOutcome.continueLoop, hist, []) := by
  simp [chatTurnStep, h]

/-- Evaluation of a `go-bot-itsm` loop pass on a blank-after-trimming
line: nothing happens. -/
theorem itsmTurnStep_blank_eq (threadID now uuidStr : String) (hist : List Message)
    (rawLine : String) (mr : Except String ModelResponse)
    (h : trimSpace rawLine = "") :
    itsmTurnStep threadID now uuidStr hist rawLine mr
      = (StepOutcome.continueLoop, hist, []) := by
  simp [itsmTurnStep, h]

/-- Evaluation of a `go-bot-chat` loop pass on the quit keyword:
force-flush, then the deferred provider shutdown with its 10-second
timeout; the history is untouched and no span is started. -/
theorem chatTurnStep_quit_eq (threadID : String) (hist : List Message)
    (rawLine : String) (mr : Except String ModelResponse)
    (hq : toLowerAscii (trimSpace rawLine) = "quit") :
    chatTurnStep threadID hist rawLine mr
      = (StepOutcome.quitSession, hist,
         [TurnEvent.forceFlush none, TurnEvent.providerShutdown (some 10)]) := by
  have hne : trimSpace rawLine ≠ "" := by
    intro h
    rw [h] at hq
    exact absurd hq (by decide)
  simp [chatTurnStep, hne, hq]

/-- Evaluation of a `go-bot-itsm` loop pass on the quit keyword. -/
theorem itsmTurnStep_quit_eq (threadID now uuidStr : String) (hist : List Message)
    (rawLine : String) (mr : Except String ModelResponse)
    (hq : toLowerAscii (trimSpace rawLine) = "quit") :
    itsmTurnStep threadID now uuidStr hist rawLine mr
      = (StepOutcome.quitSession, hist,
         [TurnEvent.forceFlush none, TurnEvent.providerShutdown (some 10)]) := by
  have hne : trimSpace rawLine ≠ "" := by
    intro h
    rw [h] at hq
    exact absurd hq (by decide)
  simp [itsmTurnStep, hne, hq]

/-- Evaluation of a `go-bot-chat` loop pass when the model call fails:
the user entry is appended, the span is started and ended, and no
attribute-setting call happens. -/
theorem chatTurnStep_error_eq (threadID : String) (hist : List Message)
    (rawLine err : String)
    (hne : trimSpace rawLine ≠ "")
    (hq : toLowerAscii (trimSpace rawLine) ≠ "quit") :
    chatTurnStep threadID hist rawLine (Except.error err)
      = (StepOutcome.continueLoop,
         hist ++ [⟨Role.user, trimSpace rawLine⟩],
         [TurnEvent.spanStart "chat_turn" (chatStartAttrs threadID (trimSpace rawLine)),
          TurnEvent.spanEnd]) := by
  simp [chatTurnStep, hne, hq]

/-- Evaluation of a `go-bot-itsm` loop pass when the model call
fails. -/
theorem itsmTurnStep_error_eq (threadID now uuidStr : String) (hist : List Message)
    (rawLine err : String)
    (hne : trimSpace rawLine ≠ "")
    (hq : toLowerAscii (trimSpace rawLine) ≠ "quit") :
    itsmTurnStep threadID now uuidStr hist rawLine (Except.error err)
      = (StepOutcome.continueLoop,
         hist ++ [⟨Role.user, trimSpace rawLine⟩],
         [TurnEvent.spanStart "itsm_turn" (itsmStartAttrs threadID (trimSpace rawLine)),
          TurnEvent.spanEnd]) := by
  simp [itsmTurnStep, hne, hq]

/-- The newline-joined text segments of a model response. -/
def responseTextOf (resp : ModelResponse) : String :=
  joinWith "\n" ((resp.content.filter fun b => b.type = "text").map ContentBlock.text)

/-- Evaluation of a `go-bot-chat` loop pass when the model call
succeeds: user and assistant entries are appended, the span is started,
decorated with completion and usage attributes, and ended. -/
theorem chatTurnStep_ok_eq (threadID : String) (hist : List Message)
    (rawLine : String) (resp : ModelResponse)
    (hne : trimSpace rawLine ≠ "")
    (hq : toLowerAscii (trimSpace rawLine) ≠ "quit") :
    chatTurnStep threadID hist rawLine (Except.ok resp)
      = (StepOutcome.continueLoop,
         hist ++ [⟨Role.user, trimSpace rawLine⟩, ⟨Role.assistant, responseTextOf resp⟩],
         [TurnEvent.spanStart "chat_turn" (chatStartAttrs threadID (trimSpace rawLine)),
          TurnEvent.spanSetAttrs
            [("gen_ai.completion", AttrValue.str (responseTextOf resp)),
             ("gen_ai.usage.input_tokens", AttrValue.int resp.usage.inputTokens),
             ("gen_ai.usage.output_tokens", AttrValue.int resp.usage.outputTokens)],
          TurnEvent.spanEnd]) := by
  simp [chatTurnStep, hne, hq, responseTextOf]

/-- Evaluation of a `go-bot-itsm` loop pass when the model call
succeeds; it additionally serialises the inferred ticket draft into one
more span attribute. -/
theorem itsmTurnStep_ok_eq (threadID now uuidStr : String) (hist : List Message)
    (rawLine : String) (resp : ModelResponse)
    (hne : trimSpace rawLine ≠ "")
    (hq : toLowerAscii (trimSpace rawLine) ≠ "quit") :
    itsmTurnStep threadID now uuidStr hist rawLine (Except.ok resp)
      = (StepOutcome.continueLoop,
         hist ++ [⟨Role.user, trimSpace rawLine⟩, ⟨Role.assistant, responseTextOf resp⟩],
         [TurnEvent.spanStart "itsm_turn" (itsmStartAttrs threadID (trimSpace rawLine)),
          TurnEvent.spanSetAttrs
            [("gen_ai.completion", AttrValue.str (responseTextOf resp)),
             ("gen_ai.usage.input_tokens", AttrValue.int resp.usage.inputTokens),
             ("gen_ai.usage.output_tokens", AttrValue.int resp.usage.outputTokens),
             ("itsm.ticket_draft_json", AttrValue.str (ticketDraftJson
                (inferAccessRequestDraft now uuidStr (trimSpace rawLine))))],
          TurnEvent.spanEnd]) := by
  simp [itsmTurnStep, hne, hq, responseTextOf]

/-- C1 (counterexample): on the input "I need admin access to Datadog
prod for 7 days" the claimed field values do not all hold, because the
duration field is not "unknown": both the substring "7" and the
substring "day" occur in the lowercased message, so the heuristic
returns "7d". -/
theorem c1_counterexample :
    ¬ ((inferAccessRequestDraft "2025-01-01T00:00:00Z" "0f8fad5b-d9cb-4362-8e64-68f712d0b372"
          "I need admin access to Datadog prod for 7 days").resource = "datadog_prod" ∧
       (inferAccessRequestDraft "2025-01-01T00:00:00Z" "0f8fad5b-d9cb-4362-8e64-68f712d0b372"
          "I need admin access to Datadog prod for 7 days").accessLevel = "admin" ∧
       (inferAccessRequestDraft "2025-01-01T00:00:00Z" "0f8fad5b-d9cb-4362-8e64-68f712d0b372"
          "I need admin access to Datadog prod for 7 days").duration = "unknown" ∧
       (inferAccessRequestDraft "2025-01-01T00:00:00Z" "0f8fad5b-d9cb-4362-8e64-68f712d0b372"
          "I need admin access to Datadog prod for 7 days").riskLevel = "high") := by
  intro h
  exact absurd h.2.2.1 (by decide)

/-- C1 (amended): for the input "I need admin access to Datadog prod
for 7 days", `inferAccessRequestDraft` returns a draft with
resource "datadog_prod", access level "admin", duration "7d" (both "7"
and "day" are present as substrings, so the 7+day AND-match succeeds)
and risk level "high", for every generated identifier and timestamp. -/
theorem c1_amended (now uuidStr : String) :
    (inferAccessRequestDraft now uuidStr
        "I need admin access to Datadog prod for 7 days").resource = "datadog_prod" ∧
    (inferAccessRequestDraft now uuidStr
        "I need admin access to Datadog prod for 7 days").accessLevel = "admin" ∧
    (inferAccessRequestDraft now uuidStr
        "I need admin access to Datadog prod for 7 days").duration = "7d" ∧
    (inferAccessRequestDraft now uuidStr
        "I need admin access to Datadog prod for 7 days").riskLevel = "high" :=
  ⟨rfl, rfl, rfl, rfl⟩

/-- C9: `inferAccessRequestDraft` is deterministic modulo the freshly
generated identifier and the current timestamp: two invocations on the
same text, with arbitrary identifier and clock parameters, agree on
every field other than `id` and `createdAt`. -/
theorem c9_deterministic_modulo_id_time (now1 uuid1 now2 uuid2 msg : String) :
    (inferAccessRequestDraft now1 uuid1 msg).type
        = (inferAccessRequestDraft now2 uuid2 msg).type ∧
    (inferAccessRequestDraft now1 uuid1 msg).requestedFor
        = (inferAccessRequestDraft now2 uuid2 msg).requestedFor ∧
    (inferAccessRequestDraft now1 uuid1 msg).resource
        = (inferAccessRequestDraft now2 uuid2 msg).resource ∧
    (inferAccessRequestDraft now1 uuid1 msg).accessLevel
        = (inferAccessRequestDraft now2 uuid2 msg).accessLevel ∧
    (inferAccessRequestDraft now1 uuid1 msg).duration
        = (inferAccessRequestDraft now2 uuid2 msg).duration ∧
    (inferAccessRequestDraft now1 uuid1 msg).businessJustif
        = (inferAccessRequestDraft now2 uuid2 msg).businessJustif ∧
    (inferAccessRequestDraft now1 uuid1 msg).approvalsRequired
        = (inferAccessRequestDraft now2 uuid2 msg).approvalsRequired ∧
    (inferAccessRequestDraft now1 uuid1 msg).riskLevel
        = (inferAccessRequestDraft now2 uuid2 msg).riskLevel ∧
    (inferAccessRequestDraft now1 uuid1 msg).status
        = (inferAccessRequestDraft now2 uuid2 msg).status ∧
    (inferAccessRequestDraft now1 uuid1 msg).recommendedActions
        = (inferAccessRequestDraft now2 uuid2 msg).recommendedActions :=
  ⟨rfl, rfl, rfl, rfl, rfl, rfl, rfl, rfl, rfl, rfl⟩

/-- C8: whenever the lowercased input contains "prod" or "production",
the resource field is the matched base resource with "_prod" appended;
in particular it is "unknown_prod" when none of the vocabulary terms
snowflake, datadog, github matched. -/
theorem c8_prod_suffix (now uuidStr msg : String)
    (h : containsSubstr (toLowerAscii msg) "prod" = true ∨
         containsSubstr (toLowerAscii msg) "production" = true) :
    (inferAccessRequestDraft now uuidStr msg).resource
        = inferResourceBase (toLowerAscii msg) ++ "_prod" ∧
    (containsSubstr (toLowerAscii msg) "snowflake" = false →
     containsSubstr (toLowerAscii msg) "datadog" = false →
     containsSubstr (toLowerAscii msg) "github" = false →
     (inferAccessRequestDraft now uuidStr msg).resource = "unknown_prod") := by
  have hres : (inferAccessRequestDraft now uuidStr msg).resource
      = inferResource (toLowerAscii msg) := rfl
  have hcond : (containsSubstr (toLowerAscii msg) "prod"
      || containsSubstr (toLowerAscii msg) "production") = true := by
    rcases h with h | h <;> simp [h]
  constructor
  · rw [hres, inferResource]
    simp only [hcond, if_true]
  · intro h1 h2 h3
    rw [hres, inferResource]
    simp [hcond, inferResourceBase, h1, h2, h3]

/-- C8 witness: a concrete input containing "production" but no
vocabulary term yields resource "unknown_prod". -/
theorem c8_prod_suffix_witness :
    (containsSubstr (toLowerAscii "Please grant me production access") "prod" = true ∨
     containsSubstr (toLowerAscii "Please grant me production access") "production" = true) ∧
    (inferAccessRequestDraft "t0" "u0" "Please grant me production access").resource
        = "unknown_prod" := by
  refine ⟨Or.inl (by decide), ?_⟩
  exact (c8_prod_suffix "t0" "u0" "Please grant me production access"
    (Or.inl (by decide))).2 (by decide) (by decide) (by decide)

/-- C10: the resource checks are sequential non-exclusive assignments in
the fixed order snowflake, datadog, github, so the later check wins
before any `_prod` suffixing: an input containing "github" has base
resource "github" whatever else it contains, and with "datadog" also
present the draft's resource is "github" or "github_prod"; likewise
"datadog" overrides "snowflake" when "github" is absent. -/
theorem c10_later_resource_check_wins (now uuidStr msg : String)
    (hd : containsSubstr (toLowerAscii msg) "datadog" = true)
    (hg : containsSubstr (toLowerAscii msg) "github" = true) :
    inferResourceBase (toLowerAscii msg) = "github" ∧
    ((inferAccessRequestDraft now uuidStr msg).resource = "github" ∨
     (inferAccessRequestDraft now uuidStr msg).resource = "github_prod") ∧
    (∀ l : String, containsSubstr l "snowflake" = true →
      containsSubstr l "datadog" = true → containsSubstr l "github" = false →
      inferResourceBase l = "datadog") := by
  have hbase : inferResourceBase (toLowerAscii msg) = "github" := by
    simp [inferResourceBase, hg]
  refine ⟨hbase, ?_, ?_⟩
  · have hres : (inferAccessRequestDraft now uuidStr msg).resource
        = inferResource (toLowerAscii msg) := rfl
    rw [hres, inferResource, hbase]
    by_cases hp : (containsSubstr (toLowerAscii msg) "prod"
        || containsSubstr (toLowerAscii msg) "production") = true
    · right
      simp [hp]
    · left
      simp only [Bool.not_eq_true] at hp
      simp [hp]
  · intro l h1 h2 h3
    simp [inferResourceBase, h2, h3]

/-- C10 witness: a concrete input containing both "datadog" and
"github" has base resource "github". -/
theorem c10_later_resource_check_wins_witness :
    containsSubstr (toLowerAscii "need datadog and github access") "datadog" = true ∧
    containsSubstr (toLowerAscii "need datadog and github access") "github" = true ∧
    (inferAccessRequestDraft "t0" "u0" "need datadog and github access").resource
        = "github" := by
  refine ⟨by decide, by decide, ?_⟩
  have h := c10_later_resource_check_wins "t0" "u0" "need datadog and github access"
    (by decide) (by decide)
  rcases h.2.1 with h1 | h1
  · exact h1
  · exact absurd h1 (by decide)

/-- C2: for every input line that is non-empty after trimming and is
not the quit keyword, one pass of the turn loop of either program starts
exactly one Turn Span and ends exactly one, both when the model call
succeeds and when it returns an error. -/
theorem c2_turn_span_started_and_ended_once (threadID now uuidStr : String)
    (histC histI : List Message) (rawLine : String)
    (mr : Except String ModelResponse)
    (hne : trimSpace rawLine ≠ "")
    (hq : toLowerAscii (trimSpace rawLine) ≠ "quit") :
    spanStartCount (chatTurnStep threadID histC rawLine mr).2.2 = 1 ∧
    spanEndCount (chatTurnStep threadID histC rawLine mr).2.2 = 1 ∧
    spanStartCount (itsmTurnStep threadID now uuidStr histI rawLine mr).2.2 = 1 ∧
    spanEndCount (itsmTurnStep threadID now uuidStr histI rawLine mr).2.2 = 1 := by
  cases mr with
  | error err =>
      rw [chatTurnStep_error_eq threadID histC rawLine err hne hq,
          itsmTurnStep_error_eq threadID now uuidStr histI rawLine err hne hq]
      exact ⟨rfl, rfl, rfl, rfl⟩
  | ok resp =>
      rw [chatTurnStep_ok_eq threadID histC rawLine resp hne hq,
          itsmTurnStep_ok_eq threadID now uuidStr histI rawLine resp hne hq]
      exact ⟨rfl, rfl, rfl, rfl⟩

/-- C2 witness: concrete instance, on a model error. -/
theorem c2_turn_span_started_and_ended_once_witness :
    (trimSpace "hello" ≠ "" ∧ toLowerAscii (trimSpace "hello") ≠ "quit") ∧
    spanStartCount (chatTurnStep "T" [] "hello" (Except.error "boom")).2.2 = 1 ∧
    spanEndCount (chatTurnStep "T" [] "hello" (Except.error "boom")).2.2 = 1 ∧
    spanStartCount (itsmTurnStep "T" "t0" "u0" [] "hello" (Except.error "boom")).2.2 = 1 ∧
    spanEndCount (itsmTurnStep "T" "t0" "u0" [] "hello" (Except.error "boom")).2.2 = 1 :=
  ⟨⟨by decide, by decide⟩,
   c2_turn_span_started_and_ended_once "T" "t0" "u0" [] [] "hello"
     (Except.error "boom") (by decide) (by decide)⟩

/-- C4: when the model call fails for a turn, the span is ended with no
attribute-setting call (so neither completion nor usage attributes are
ever attached), the transcript after the turn is the transcript before
it plus exactly one user entry, and the loop continues; in both
programs. -/
theorem c4_model_error_turn (threadID now uuidStr : String)
    (histC histI : List Message) (rawLine err : String)
    (hne : trimSpace rawLine ≠ "")
    (hq : toLowerAscii (trimSpace rawLine) ≠ "quit") :
    (chatTurnStep threadID histC rawLine (Except.error err)).1
        = StepOutcome.continueLoop ∧
    (chatTurnStep threadID histC rawLine (Except.error err)).2.1
        = histC ++ [⟨Role.user, trimSpace rawLine⟩] ∧
    spanEndCount (chatTurnStep threadID histC rawLine (Except.error err)).2.2 = 1 ∧
    setAttrsCount (chatTurnStep threadID histC rawLine (Except.error err)).2.2 = 0 ∧
    List.lookup "gen_ai.completion"
        (attrsOf (chatTurnStep threadID histC rawLine (Except.error err)).2.2) = none ∧
    List.lookup "gen_ai.usage.input_tokens"
        (attrsOf (chatTurnStep threadID histC rawLine (Except.error err)).2.2) = none ∧
    List.lookup "gen_ai.usage.output_tokens"
        (attrsOf (chatTurnStep threadID histC rawLine (Except.error err)).2.2) = none ∧
    (itsmTurnStep threadID now uuidStr histI rawLine (Except.error err)).1
        = StepOutcome.continueLoop ∧
    (itsmTurnStep threadID now uuidStr histI rawLine (Except.error err)).2.1
        = histI ++ [⟨Role.user, trimSpace rawLine⟩] ∧
    spanEndCount (itsmTurnStep threadID now uuidStr histI rawLine (Except.error err)).2.2 = 1 ∧
    setAttrsCount (itsmTurnStep threadID now uuidStr histI rawLine (Except.error err)).2.2 = 0 ∧
    List.lookup "gen_ai.completion"
        (attrsOf (itsmTurnStep threadID now uuidStr histI rawLine (Except.error err)).2.2)
        = none ∧
    List.lookup "gen_ai.usage.input_tokens"
        (attrsOf (itsmTurnStep threadID now uuidStr histI rawLine (Except.error err)).2.2)
        = none ∧
    List.lookup "gen_ai.usage.output_tokens"
        (attrsOf (itsmTurnStep threadID now uuidStr histI rawLine (Except.error err)).2.2)
        = none := by
  rw [chatTurnStep_error_eq threadID histC rawLine err hne hq,
      itsmTurnStep_error_eq threadID now uuidStr histI rawLine err hne hq]
  exact ⟨rfl, rfl, rfl, rfl, rfl, rfl, rfl, rfl, rfl, rfl, rfl, rfl, rfl, rfl⟩

/-- C4 witness: concrete failing turn. -/
theorem c4_model_error_turn_witness :
    (trimSpace "hi there" ≠ "" ∧ toLowerAscii (trimSpace "hi there") ≠ "quit") ∧
    (chatTurnStep "T" [] "hi there" (Except.error "timeout")).2.1
        = [⟨Role.user, "hi there"⟩] ∧
    List.lookup "gen_ai.completion"
        (attrsOf (chatTurnStep "T" [] "hi there" (Except.error "timeout")).2.2) = none := by
  have h := c4_model_error_turn "T" "t0" "u0" [] [] "hi there" "timeout"
    (by decide) (by decide)
  refine ⟨⟨by decide, by decide⟩, ?_, h.2.2.2.2.1⟩
  exact h.2.1.trans (by decide)

/-- C5: the completion text recorded on the chat turn span is the
newline-joined concatenation of the response's text segments in their
original order. -/
theorem c5_completion_newline_joined (threadID : String) (hist : List Message)
    (rawLine : String) (resp : ModelResponse)
    (hne : trimSpace rawLine ≠ "")
    (hq : toLowerAscii (trimSpace rawLine) ≠ "quit") :
    List.lookup "gen_ai.completion"
        (attrsOf (chatTurnStep threadID hist rawLine (Except.ok resp)).2.2)
      = some (AttrValue.str (joinWith "\n"
          ((resp.content.filter fun b => b.type = "text").map ContentBlock.text))) := by
  rw [chatTurnStep_ok_eq threadID hist rawLine resp hne hq]
  rfl

/-- C5 witness: for the segment list ["Hello", "there"] the recorded
completion is "Hello", a newline, then "there". -/
theorem c5_completion_newline_joined_witness :
    List.lookup "gen_ai.completion"
        (attrsOf (chatTurnStep "T" [] "hi"
          (Except.ok ⟨[⟨"text", "Hello"⟩, ⟨"text", "there"⟩], ⟨3, 4⟩⟩)).2.2)
      = some (AttrValue.str "Hello\nthere") := by
  have h := c5_completion_newline_joined "T" [] "hi"
    ⟨[⟨"text", "Hello"⟩, ⟨"text", "there"⟩], ⟨3, 4⟩⟩ (by decide) (by decide)
  exact h.trans (by decide)

/-- C6: when the trimmed input matches the quit keyword
case-insensitively, the pass performs exactly one flushing call with a
positive timeout before terminating (the deferred provider shutdown
with its 10-second timeout; the preceding explicit force-flush carries
no timeout), creates no Turn Span for the quit line, and leaves the
transcript untouched. -/
theorem c6_quit_flush_once (threadID : String) (hist : List Message)
    (rawLine : String) (mr : Except String ModelResponse)
    (hq : toLowerAscii (trimSpace rawLine) = "quit") :
    (chatTurnStep threadID hist rawLine mr).1 = StepOutcome.quitSession ∧
    flushWithPositiveTimeoutCount (chatTurnStep threadID hist rawLine mr).2.2 = 1 ∧
    spanStartCount (chatTurnStep threadID hist rawLine mr).2.2 = 0 ∧
    (chatTurnStep threadID hist rawLine mr).2.1 = hist := by
  rw [chatTurnStep_quit_eq threadID hist rawLine mr hq]
  exact ⟨rfl, rfl, rfl, rfl⟩

/-- C6 witness: a quit line with surrounding whitespace and mixed
case. -/
theorem c6_quit_flush_once_witness :
    toLowerAscii (trimSpace "  QuIt ") = "quit" ∧
    (chatTurnStep "T" [⟨Role.user, "hi"⟩] "  QuIt " (Except.error "unused")).1
        = StepOutcome.quitSession ∧
    flushWithPositiveTimeoutCount
        (chatTurnStep "T" [⟨Role.user, "hi"⟩] "  QuIt " (Except.error "unused")).2.2 = 1 ∧
    spanStartCount
        (chatTurnStep "T" [⟨Role.user, "hi"⟩] "  QuIt " (Except.error "unused")).2.2 = 0 ∧
    (chatTurnStep "T" [⟨Role.user, "hi"⟩] "  QuIt " (Except.error "unused")).2.1
        = [⟨Role.user, "hi"⟩] :=
  ⟨by decide,
   c6_quit_flush_once "T" [⟨Role.user, "hi"⟩] "  QuIt " (Except.error "unused") (by decide)⟩

/-- C7: for every input line that is empty or whitespace-only after
trimming, the pass is a no-op in both programs: no Turn Span is
created, the transcript is unchanged and the loop reprompts. -/
theorem c7_blank_input_noop (threadID now uuidStr : String)
    (histC histI : List Message) (rawLine : String)
    (mrC mrI : Except String ModelResponse)
    (h : trimSpace rawLine = "") :
    chatTurnStep threadID histC rawLine mrC = (StepOutcome.continueLoop, histC, []) ∧
    itsmTurnStep threadID now uuidStr histI rawLine mrI
        = (StepOutcome.continueLoop, histI, []) :=
  ⟨chatTurnStep_blank_eq threadID histC rawLine mrC h,
   itsmTurnStep_blank_eq threadID now uuidStr histI rawLine mrI h⟩

/-- C7 witness: a whitespace-only line. -/
theorem c7_blank_input_noop_witness :
    trimSpace "   " = "" ∧
    chatTurnStep "T" [⟨Role.user, "hi"⟩] "   " (Except.error "unused")
        = (StepOutcome.continueLoop, [⟨Role.user, "hi"⟩], []) ∧
    itsmTurnStep "T" "t0" "u0" [] "   " (Except.error "unused")
        = (StepOutcome.continueLoop, [], []) := by
  have h := c7_blank_input_noop "T" "t0" "u0" [⟨Role.user, "hi"⟩] [] "   "
    (Except.error "unused") (Except.error "unused") (by decide)
  exact ⟨by decide, h.1, h.2⟩

/-- Every span-start event of one `go-bot-chat` loop pass carries the
session-id attribute with the session's thread identifier. -/
theorem chatTurnStep_sessionId (threadID : String) (hist : List Message)
    (line : String) (mr : Except String ModelResponse) :
    ∀ e ∈ (chatTurnStep threadID hist line mr).2.2, isSpanStart e = true →
      sessionIdOfEvent e = some (AttrValue.str threadID) := by
  intro e he hs
  by_cases h1 : trimSpace line = ""
  · rw [chatTurnStep_blank_eq threadID hist line mr h1] at he
    simp at he
  · by_cases h2 : toLowerAscii (trimSpace line) = "quit"
    · rw [chatTurnStep_quit_eq threadID hist line mr h2] at he
      simp at he
      rcases he with he | he <;> subst he <;> exact absurd hs (by decide)
    · cases mr with
      | error err =>
          rw [chatTurnStep_error_eq threadID hist line err h1 h2] at he
          simp at he
          rcases he with he | he
          · subst he; rfl
          · subst he; exact absurd hs (by decide)
      | ok resp =>
          rw [chatTurnStep_ok_eq threadID hist line resp h1 h2] at he
          simp at he
          rcases he with he | he | he
          · subst he; rfl
          · subst he; simp [isSpanStart] at hs
          · subst he; simp [isSpanStart] at hs

/-- Every span-start event of one `go-bot-itsm` loop pass carries the
session-id attribute with the session's thread identifier. -/
theorem itsmTurnStep_sessionId (threadID now uuidStr : String) (hist : List Message)
    (line : String) (mr : Except String ModelResponse) :
    ∀ e ∈ (itsmTurnStep threadID now uuidStr hist line mr).2.2, isSpanStart e = true →
      sessionIdOfEvent e = some (AttrValue.str threadID) := by
  intro e he hs
  by_cases h1 : trimSpace line = ""
  · rw [itsmTurnStep_blank_eq threadID now uuidStr hist line mr h1] at he
    simp at he
  · by_cases h2 : toLowerAscii (trimSpace line) = "quit"
    · rw [itsmTurnStep_quit_eq threadID now uuidStr hist line mr h2] at he
      simp at he
      rcases he with he | he <;> subst he <;> exact absurd hs (by decide)
    · cases mr with
      | error err =>
          rw [itsmTurnStep_error_eq threadID now uuidStr hist line err h1 h2] at he
          simp at he
          rcases he with he | he
          · subst he; rfl
          · subst he; exact absurd hs (by decide)
      | ok resp =>
          rw [itsmTurnStep_ok_eq threadID now uuidStr hist line resp h1 h2] at he
          simp at he
          rcases he with he | he | he
          · subst he; rfl
          · subst he; simp [isSpanStart] at hs
          · subst he; simp [isSpanStart] at hs

/-- Every span-start event of a whole `go-bot-chat` session carries the
session's thread identifier, whatever history the loop was entered
with. -/
theorem runChatSession_sessionId (threadID : String)
    (inputs : List (String × Except String ModelResponse)) :
    ∀ (hist : List Message) (e : TurnEvent),
      e ∈ runChatSession threadID hist inputs → isSpanStart e = true →
      sessionIdOfEvent e = some (AttrValue.str threadID) := by
  induction inputs with
  | nil =>
      intro hist e he _
      simp [runChatSession] at he
  | cons p rest ih =>
      intro hist e he hs
      rcases p with ⟨line, mr⟩
      simp only [runChatSession] at he
      cases hout : (chatTurnStep threadID hist line mr).1 with
      | continueLoop =>
          rw [hout] at he
          simp only [] at he
          rcases List.mem_append.mp he with he | he
          · exact chatTurnStep_sessionId threadID hist line mr e he hs
          · exact ih _ e he hs
      | quitSession =>
          rw [hout] at he
          simp only [] at he
          exact chatTurnStep_sessionId threadID hist line mr e he hs

/-- Every span-start event of a whole `go-bot-itsm` session carries the
session's thread identifier. -/
theorem runItsmSession_sessionId (threadID : String)
    (inputs : List ItsmTurnInput) :
    ∀ (hist : List Message) (e : TurnEvent),
      e ∈ runItsmSession threadID hist inputs → isSpanStart e = true →
      sessionIdOfEvent e = some (AttrValue.str threadID) := by
  induction inputs with
  | nil =>
      intro hist e he _
      simp [runItsmSession] at he
  | cons p rest ih =>
      intro hist e he hs
      simp only [runItsmSession] at he
      cases hout : (itsmTurnStep threadID p.now p.uuidStr hist p.line p.modelResult).1 with
      | continueLoop =>
          rw [hout] at he
          simp only [] at he
          rcases List.mem_append.mp he with he | he
          · exact itsmTurnStep_sessionId threadID p.now p.uuidStr hist p.line p.modelResult e he hs
          · exact ih _ e he hs
      | quitSession =>
          rw [hout] at he
          simp only [] at he
          exact itsmTurnStep_sessionId threadID p.now p.uuidStr hist p.line p.modelResult e he hs

/-- C3: within one session of either program, every Turn Span created
carries the attribute `langsmith.metadata.session_id` whose value is the
thread identifier generated once at session start; it is therefore
identical across all Turn Spans of the session. -/
theorem c3_session_id_uniform (threadID : String)
    (inputsC : List (String × Except String ModelResponse))
    (inputsI : List ItsmTurnInput) (e : TurnEvent)
    (he : e ∈ runChatSession threadID [] inputsC ∨
          e ∈ runItsmSession threadID [] inputsI)
    (hs : isSpanStart e = true) :
    sessionIdOfEvent e = some (AttrValue.str threadID) := by
  rcases he with he | he
  · exact runChatSession_sessionId threadID inputsC [] e he hs
  · exact runItsmSession_sessionId threadID inputsI [] e he hs

/-- C3 witness: the span started for the first turn of a concrete chat
session carries the thread identifier. -/
theorem c3_session_id_uniform_witness :
    (TurnEvent.spanStart "chat_turn" (chatStartAttrs "T" "hi")
        ∈ runChatSession "T" [] [("hi", Except.error "boom")] ∨
     TurnEvent.spanStart "chat_turn" (chatStartAttrs "T" "hi")
        ∈ runItsmSession "T" [] []) ∧
    isSpanStart (TurnEvent.spanStart "chat_turn" (chatStartAttrs "T" "hi")) = true ∧
    sessionIdOfEvent (TurnEvent.spanStart "chat_turn" (chatStartAttrs "T" "hi"))
        = some (AttrValue.str "T") := by
  refine ⟨Or.inl (by decide), by decide, ?_⟩
  exact c3_session_id_uniform "T" [("hi", Except.error "boom")] []
    (TurnEvent.spanStart "chat_turn" (chatStartAttrs "T" "hi"))
    (Or.inl (by decide)) (by decide)

end GoBotSpec
